import Mathlib

/-!
# Verification of the `nih_plug_slint` window bridge

Shallow embedding of the `nih_plug_slint` crate (files `src/lib.rs`,
`src/editor.rs`, `src/event_translation.rs`, `src/window_handler.rs`).

Modelling conventions:
* `f32`/`f64` values (positions, scale factors, logical sizes) are embedded as
  rationals `ℚ`; Rust's `round()` (round half away from zero) is `rustRound`,
  and the saturating float-to-`u32` cast `as u32` is `rustCastU32`.
* `u32` values are embedded as `ℕ`; where the source multiplies two `u32`
  values (the pixel-count computations) the result is reduced `% 2 ^ 32`,
  matching release-mode wrapping semantics (in debug builds the same inputs
  abort with an overflow panic instead, so the affected claims fail either way).
* The bridge's mutable state (`SlintWindowHandler` plus the softbuffer surface,
  the `MinimalSoftwareWindow` size and the host's cursor mode it drives) is one
  record `BridgeState`; calls into foreign / UI-runtime code are `callSite`
  steps whose possible panics are modelled by a `PanicOracle` choosing, per call
  site, whether that call panics.  `Except BridgeState` threads the state: a
  `.error st` result is an unwound panic carrying the state as it was at the
  moment of the panic, which is exactly what `catch_unwind` over
  `AssertUnwindSafe(&mut self)` leaves behind.
* Events dispatched to the Slint window (`dispatch_event` /
  `try_dispatch_event`) are appended to the `dispatched` log;
  `enable_unbounded_mouse_movement` calls on the host window are appended to
  `host_cursor_calls`.

Note: `window_handler.rs` calls `translate_event(&event, scale, is_button_pressed)`
with a third argument that the definition in `event_translation.rs` does not
take (and would not use); the embedding follows the two-argument definition.
-/

namespace NihPlugSlint

/-- Rust `f32::round` / `f64::round`: round half away from zero, on `ℚ`. -/
def rustRound (q : ℚ) : ℤ := if 0 ≤ q then round q else -round (-q)

/-- Rust's saturating float-to-`u32` cast (`as u32` on a rounded float):
negative values clamp to `0`, values above `u32::MAX` clamp to `2 ^ 32 - 1`. -/
def rustCastU32 (z : ℤ) : ℕ := min (max z 0).toNat (2 ^ 32 - 1)

/-- Embeds `slint::LogicalPosition` (two `f32` coordinates). -/
structure LogicalPosition where
  x : ℚ
  y : ℚ
  deriving DecidableEq, Repr

/-- Embeds `SlintState` from `lib.rs`: the persisted editor geometry state.
`size` is the `AtomicCell<(u32, u32)>` logical size, `user_scale_factor` the
`AtomicCell<f64>` zoom, `openFlag` the `AtomicBool` named `open` in the source. -/
structure SlintState where
  size : ℕ × ℕ
  user_scale_factor : ℚ
  openFlag : Bool
  deriving DecidableEq, Repr

/-- Embeds `SlintState::inner_logical_size()`. -/
def SlintState.inner_logical_size (s : SlintState) : ℕ × ℕ := s.size

/-- Embeds `SlintState::scaled_logical_size()`: logical size with the user scale factor
applied, `(width as f64 * scale).round() as u32` per component. -/
def SlintState.scaled_logical_size (s : SlintState) : ℕ × ℕ :=
  (rustCastU32 (rustRound ((s.size.1 : ℚ) * s.user_scale_factor)),
   rustCastU32 (rustRound ((s.size.2 : ℚ) * s.user_scale_factor)))

/-- Embeds `SlintState::size()` — the size reported to the host (named `reportedSize`
here because `size` is taken by the field projection). -/
def SlintState.reportedSize (s : SlintState) : ℕ × ℕ := s.scaled_logical_size

/-- Embeds `SlintState::user_scale_factor()`. -/
def SlintState.userScaleFactor (s : SlintState) : ℚ := s.user_scale_factor

/-- Embeds `SlintState::is_open()`. -/
def SlintState.is_open (s : SlintState) : Bool := s.openFlag

/-- The single-slot mailbox inside `SlintMouseControl`:
`Arc<AtomicCell<Option<(bool, bool)>>>`, holding `(enable, restore_position)`. -/
abbrev MouseRequestSlot := Option (Bool × Bool)

/-- Embeds `SlintMouseControl::enable_unbounded_movement`: overwrite the slot with
`Some((true, restore_position))`. -/
def enable_unbounded_movement (_slot : MouseRequestSlot) (restore_position : Bool) :
    MouseRequestSlot :=
  some (true, restore_position)

/-- Embeds `SlintMouseControl::disable_unbounded_movement`: overwrite the slot with
`Some((false, false))`. -/
def disable_unbounded_movement (_slot : MouseRequestSlot) : MouseRequestSlot :=
  some (false, false)

/-- Embeds `SlintMouseControl::take_request`: `swap(None)` — returns the previous slot
content together with the emptied slot. -/
def take_request (slot : MouseRequestSlot) : MouseRequestSlot × MouseRequestSlot :=
  (slot, none)

/-- Embeds `SlintMouseControl::is_unbounded_requested`. -/
def is_unbounded_requested (slot : MouseRequestSlot) : Bool :=
  match slot with
  | some (true, _) => true
  | _ => false

/-- Embeds `baseview::MouseButton`. -/
inductive MouseButton where
  | left | right | middle | back | forward
  | other (id : ℕ)
  deriving DecidableEq, Repr

/-- Embeds `baseview::ScrollDelta`. -/
inductive ScrollDelta where
  | lines (x y : ℚ)
  | pixels (x y : ℚ)
  deriving DecidableEq, Repr

/-- Embeds `baseview::MouseEvent` (modifiers omitted: the translator ignores them). -/
inductive MouseEvent where
  | cursorMoved (position : LogicalPosition)
  | buttonPressed (button : MouseButton)
  | buttonReleased (button : MouseButton)
  | wheelScrolled (delta : ScrollDelta)
  | cursorEntered
  | cursorLeft
  | dragEntered
  | dragMoved
  | dragLeft
  | dragDropped
  deriving DecidableEq, Repr

/-- Embeds `keyboard_types::Key`, restricted to the variants `key_to_text`
distinguishes; `unmapped` stands for every other non-printable key. -/
inductive Key where
  | character (s : String)
  | enter | tab | backspace | del | escape
  | arrowUp | arrowDown | arrowLeft | arrowRight
  | home | keyEnd | pageUp | pageDown
  | unmapped
  deriving DecidableEq, Repr

/-- Embeds `keyboard_types::KeyState`. -/
inductive KeyState where
  | down | up
  deriving DecidableEq, Repr

/-- Embeds `baseview::WindowInfo` as consumed by the bridge: `logical_size()` (f64),
`physical_size()` (u32) and `scale()` (f64). -/
structure WindowInfo where
  logicalWidth : ℚ
  logicalHeight : ℚ
  physicalWidth : ℕ
  physicalHeight : ℕ
  scale : ℚ
  deriving DecidableEq, Repr

/-- Embeds `baseview::WindowEvent`. -/
inductive BaseviewWindowEvent where
  | resized (info : WindowInfo)
  | focused
  | unfocused
  | willClose
  deriving DecidableEq, Repr

/-- Embeds `baseview::Event`. -/
inductive Event where
  | mouse (e : MouseEvent)
  | keyboard (state : KeyState) (key : Key)
  | window (e : BaseviewWindowEvent)
  deriving DecidableEq, Repr

/-- Embeds `slint::platform::PointerEventButton`. -/
inductive PointerEventButton where
  | left | right | middle | other
  deriving DecidableEq, Repr

/-- Embeds `slint::platform::WindowEvent` (the UI-runtime event vocabulary). -/
inductive WindowEvent where
  | pointerMoved (position : LogicalPosition)
  | pointerPressed (position : LogicalPosition) (button : PointerEventButton)
  | pointerReleased (position : LogicalPosition) (button : PointerEventButton)
  | pointerScrolled (position : LogicalPosition) (delta_x delta_y : ℚ)
  | pointerExited
  | keyPressed (text : String)
  | keyReleased (text : String)
  | resized (width height : ℚ)
  | scaleFactorChanged (scale_factor : ℚ)
  | windowActiveChanged (active : Bool)
  | closeRequested
  deriving DecidableEq, Repr

/-- Embeds `baseview::EventStatus`. -/
inductive EventStatus where
  | captured
  | ignored
  deriving DecidableEq, Repr

/-- Embeds `translate_mouse_button` from `event_translation.rs`. -/
def translate_mouse_button (button : MouseButton) : Option PointerEventButton :=
  match button with
  | MouseButton.left => some PointerEventButton.left
  | MouseButton.right => some PointerEventButton.right
  | MouseButton.middle => some PointerEventButton.middle
  | MouseButton.back => some PointerEventButton.other
  | MouseButton.forward => some PointerEventButton.other
  | MouseButton.other _ => some PointerEventButton.other

/-- Embeds `key_to_text` from `event_translation.rs`. -/
def key_to_text (key : Key) : String :=
  match key with
  | Key.character s => s
  | Key.enter => "\n"
  | Key.tab => "\t"
  | Key.backspace => "\x08"
  | Key.del => "\x7F"
  | Key.escape => "\x1B"
  | _ => ""

/-- Embeds `translate_mouse_event` from `event_translation.rs`.  Pressed / released /
scrolled events get the placeholder position `LogicalPosition::default()`;
the caller back-fills it (see `backfillPosition`). -/
def translate_mouse_event (event : MouseEvent) (scale_factor : ℚ) : Option WindowEvent :=
  match event with
  | MouseEvent.cursorMoved position =>
      some (WindowEvent.pointerMoved
        ⟨position.x / scale_factor, position.y / scale_factor⟩)
  | MouseEvent.buttonPressed button =>
      match translate_mouse_button button with
      | some slint_button => some (WindowEvent.pointerPressed ⟨0, 0⟩ slint_button)
      | none => none
  | MouseEvent.buttonReleased button =>
      match translate_mouse_button button with
      | some slint_button => some (WindowEvent.pointerReleased ⟨0, 0⟩ slint_button)
      | none => none
  | MouseEvent.wheelScrolled delta =>
      match delta with
      | ScrollDelta.lines x y =>
          some (WindowEvent.pointerScrolled ⟨0, 0⟩ (x * 20) (y * 20))
      | ScrollDelta.pixels x y =>
          some (WindowEvent.pointerScrolled ⟨0, 0⟩ x y)
  | MouseEvent.cursorEntered => some (WindowEvent.pointerMoved ⟨0, 0⟩)
  | MouseEvent.cursorLeft => some WindowEvent.pointerExited
  | MouseEvent.dragEntered => none
  | MouseEvent.dragMoved => none
  | MouseEvent.dragLeft => none
  | MouseEvent.dragDropped => none

/-- Embeds `translate_keyboard_event` from `event_translation.rs`. -/
def translate_keyboard_event (state : KeyState) (key : Key) : Option WindowEvent :=
  match state with
  | KeyState.down => some (WindowEvent.keyPressed (key_to_text key))
  | KeyState.up => some (WindowEvent.keyReleased (key_to_text key))

/-- Embeds `translate_window_event` from `event_translation.rs`. -/
def translate_window_event (event : BaseviewWindowEvent) : Option WindowEvent :=
  match event with
  | BaseviewWindowEvent.resized info =>
      some (WindowEvent.resized info.logicalWidth info.logicalHeight)
  | BaseviewWindowEvent.focused => some (WindowEvent.windowActiveChanged true)
  | BaseviewWindowEvent.unfocused => some (WindowEvent.windowActiveChanged false)
  | BaseviewWindowEvent.willClose => some WindowEvent.closeRequested

/-- Embeds `translate_event` from `event_translation.rs`. -/
def translate_event (event : Event) (scale_factor : ℚ) : Option WindowEvent :=
  match event with
  | Event.mouse e => translate_mouse_event e scale_factor
  | Event.keyboard state key => translate_keyboard_event state key
  | Event.window e => translate_window_event e

/-- Embeds `slint::Rgb8Pixel`. -/
structure Rgb8Pixel where
  r : ℕ
  g : ℕ
  b : ℕ
  deriving DecidableEq, Repr

/-- Embeds `Rgb8Pixel::default()`. -/
def Rgb8Pixel.default : Rgb8Pixel := ⟨0, 0, 0⟩

/-- Embeds `Vec::resize(n, v)`: truncate to `n` elements or pad with copies of `v`. -/
def listResize (l : List Rgb8Pixel) (n : ℕ) (v : Rgb8Pixel) : List Rgb8Pixel :=
  if n ≤ l.length then l.take n else l ++ List.replicate (n - l.length) v

/-- The bridge's mutable state: the fields of `SlintWindowHandler` together
with the pieces of host-side state it drives.

* `slintStateSize` — the shared `SlintState.size` cell the handler stores into
  on resize;
* `physical_width`, `physical_height`, `scale_factor`, `pixel_buffer`,
  `last_mouse_position`, `mouse_button_pressed`, `unbounded_active` — the
  handler's own fields (the mouse-control slot is `mouse_request`);
* `surface_width`, `surface_height` — the softbuffer surface dimensions;
* `slint_size` — the `MinimalSoftwareWindow` size as set by `set_size`;
* `host_unbounded` — whether the host window's cursor is actually in unbounded
  mode;
* `dispatched` — log of every event dispatched to the Slint window;
* `host_cursor_calls` — log of `enable_unbounded_mouse_movement(enable, restore)`
  calls made on the host window. -/
structure BridgeState where
  slintStateSize : ℕ × ℕ
  physical_width : ℕ
  physical_height : ℕ
  scale_factor : ℚ
  pixel_buffer : List Rgb8Pixel
  last_mouse_position : LogicalPosition
  mouse_button_pressed : Bool
  mouse_request : MouseRequestSlot
  unbounded_active : Bool
  surface_width : ℕ
  surface_height : ℕ
  slint_size : ℕ × ℕ
  host_unbounded : Bool
  dispatched : List WindowEvent
  host_cursor_calls : List (Bool × Bool)
  deriving DecidableEq, Repr

/-- The call sites inside the two entry points where control passes into
foreign / UI-runtime code and a panic can therefore be raised. -/
inductive Site where
  | scaleFactorDispatch
  | slintSetSize
  | resizedDispatch
  | mainDispatch
  | timers
  | cursorHostEnable
  | cursorHostDisable
  deriving DecidableEq, Repr

/-- A panic oracle decides, per call site, whether the call into foreign / UI
code raises a panic during the run under consideration. -/
abbrev PanicOracle := Site → Bool

/-- The oracle of an ordinary run: no call panics. -/
def noPanics : PanicOracle := fun _ => false

/-- One call into foreign / UI code at site `s`: if the oracle says the call
panics, the computation unwinds with the state as it was just before the call;
otherwise the call's effect `f` is applied. -/
def callSite (p : PanicOracle) (s : Site) (f : BridgeState → BridgeState)
    (st : BridgeState) : Except BridgeState BridgeState :=
  if p s then Except.error st else Except.ok (f st)

/-- A `dispatch_event` / `try_dispatch_event` call on the Slint window:
on success the event is appended to the `dispatched` log. -/
def dispatchTo (p : PanicOracle) (s : Site) (event : WindowEvent)
    (st : BridgeState) : Except BridgeState BridgeState :=
  callSite p s (fun st => { st with dispatched := st.dispatched ++ [event] }) st

/-- The epsilon test of the scale-factor reconciliation:
`(new_scale_factor - self.scale_factor).abs() > 0.001`. -/
def scaleDiffers (new_scale old_scale : ℚ) : Prop :=
  1 / 1000 < |new_scale - old_scale|

instance (a b : ℚ) : Decidable (scaleDiffers a b) :=
  inferInstanceAs (Decidable (1 / 1000 < |a - b|))

/-- The `NonZeroU32::new` pair check guarding the softbuffer surface resize. -/
def bothNonZero (w h : ℕ) : Prop := w ≠ 0 ∧ h ≠ 0

instance (w h : ℕ) : Decidable (bothNonZero w h) :=
  inferInstanceAs (Decidable (w ≠ 0 ∧ h ≠ 0))

/-- The resize block at the top of `SlintWindowHandler::on_event_inner`
(window_handler.rs lines 319–377):
store the rounded logical size into the shared `SlintState`, adopt the host's
physical size, reconcile the scale factor (host wins when it differs from the
cache by more than `0.001`, and the `ScaleFactorChanged` event is dispatched
before anything else), resize the softbuffer surface (skipped when a dimension
is zero, because `NonZeroU32::new` fails), resize the pixel buffer to
`physical_width * physical_height` (a wrapping `u32` multiplication), set the
Slint window's size, and dispatch a `Resized` event with the logical size. -/
def handleResize (p : PanicOracle) (info : WindowInfo) (st : BridgeState) :
    Except BridgeState BridgeState :=
  let st := { st with slintStateSize :=
      (rustCastU32 (rustRound info.logicalWidth),
       rustCastU32 (rustRound info.logicalHeight)) }
  let st := { st with physical_width := info.physicalWidth,
                      physical_height := info.physicalHeight }
  let step1 : Except BridgeState BridgeState :=
    if scaleDiffers info.scale st.scale_factor then
      dispatchTo p Site.scaleFactorDispatch (WindowEvent.scaleFactorChanged info.scale)
        { st with scale_factor := info.scale }
    else Except.ok st
  match step1 with
  | Except.error s => Except.error s
  | Except.ok st =>
    let st :=
      if bothNonZero info.physicalWidth info.physicalHeight then
        { st with surface_width := info.physicalWidth,
                  surface_height := info.physicalHeight }
      else st
    let pixel_count := st.physical_width * st.physical_height % 2 ^ 32
    let st := { st with pixel_buffer := listResize st.pixel_buffer pixel_count Rgb8Pixel.default }
    match callSite p Site.slintSetSize
        (fun s => { s with slint_size := (s.physical_width, s.physical_height) }) st with
    | Except.error s => Except.error s
    | Except.ok st =>
      dispatchTo p Site.resizedDispatch
        (WindowEvent.resized info.logicalWidth info.logicalHeight) st

/-- The position back-fill performed by `on_event_inner` after translation:
pressed / released / scrolled events get the cached last-known position. -/
def backfillPosition (event : WindowEvent) (pos : LogicalPosition) : WindowEvent :=
  match event with
  | WindowEvent.pointerPressed _ button => WindowEvent.pointerPressed pos button
  | WindowEvent.pointerReleased _ button => WindowEvent.pointerReleased pos button
  | WindowEvent.pointerScrolled _ dx dy => WindowEvent.pointerScrolled pos dx dy
  | e => e

/-- Embeds `SlintWindowHandler::on_event_inner`: resize handling, position / button
tracking, translate, back-fill, dispatch, timer update, and the resulting
`EventStatus`. -/
def on_event_inner (p : PanicOracle) (st : BridgeState) (event : Event) :
    Except BridgeState (BridgeState × EventStatus) :=
  let step0 : Except BridgeState BridgeState :=
    match event with
    | Event.window (BaseviewWindowEvent.resized info) => handleResize p info st
    | _ => Except.ok st
  match step0 with
  | Except.error s => Except.error s
  | Except.ok st =>
    let st :=
      match event with
      | Event.mouse (MouseEvent.cursorMoved position) =>
          { st with last_mouse_position := ⟨max position.x 0, max position.y 0⟩ }
      | _ => st
    let st :=
      match event with
      | Event.mouse (MouseEvent.buttonPressed _) => { st with mouse_button_pressed := true }
      | _ => st
    let st :=
      match event with
      | Event.mouse (MouseEvent.buttonReleased _) => { st with mouse_button_pressed := false }
      | _ => st
    match translate_event event st.scale_factor with
    | some slint_event =>
      let slint_event := backfillPosition slint_event st.last_mouse_position
      match dispatchTo p Site.mainDispatch slint_event st with
      | Except.error s => Except.error s
      | Except.ok st =>
        match callSite p Site.timers id st with
        | Except.error s => Except.error s
        | Except.ok st => Except.ok (st, EventStatus.captured)
    | none => Except.ok (st, EventStatus.ignored)

/-- Embeds `SlintWindowHandler::process_cursor_requests`: take the pending request and,
only when it differs from `unbounded_active`, toggle the host's cursor mode.
The host call happens before `unbounded_active` is updated, so a panic in it
leaves the flag (and the host mode) unchanged while the request is already
consumed. -/
def process_cursor_requests (p : PanicOracle) (st : BridgeState) :
    Except BridgeState BridgeState :=
  match take_request st.mouse_request with
  | (some (enable, restore_position), _) =>
    let st := { st with mouse_request := none }
    if enable && !st.unbounded_active then
      callSite p Site.cursorHostEnable
        (fun s => { s with
          host_unbounded := true,
          host_cursor_calls := s.host_cursor_calls ++ [(true, restore_position)],
          unbounded_active := true }) st
    else if !enable && st.unbounded_active then
      callSite p Site.cursorHostDisable
        (fun s => { s with
          host_unbounded := false,
          host_cursor_calls := s.host_cursor_calls ++ [(false, false)],
          unbounded_active := false }) st
    else Except.ok st
  | (none, _) => Except.ok st

/-- The body handed to `catch_unwind` in `SlintWindowHandler::on_event`:
`on_event_inner` followed by `process_cursor_requests`. -/
def on_event_run (p : PanicOracle) (st : BridgeState) (event : Event) :
    Except BridgeState (BridgeState × EventStatus) :=
  match on_event_inner p st event with
  | Except.error s => Except.error s
  | Except.ok (st, status) =>
    match process_cursor_requests p st with
    | Except.error s => Except.error s
    | Except.ok st => Except.ok (st, status)

/-- Whether the body of `on_event` panicked in this run. -/
def on_event_panicked (p : PanicOracle) (st : BridgeState) (event : Event) : Bool :=
  match on_event_run p st event with
  | Except.error _ => true
  | Except.ok _ => false

/-- Embeds `SlintWindowHandler::on_event` (the `baseview::WindowHandler` entry point):
the whole body runs inside `catch_unwind`; a panic is logged and converted into
`EventStatus::Ignored`. -/
def on_event (p : PanicOracle) (st : BridgeState) (event : Event) :
    BridgeState × EventStatus :=
  match on_event_run p st event with
  | Except.ok r => r
  | Except.error s => (s, EventStatus.ignored)

/-- Embeds `SlintWindowHandler::on_frame`: inside `catch_unwind`, poll the cursor
requests, then run `on_frame_inner` (timers, redraw request, render, blit).
The render step writes `physical_height` rows of `physical_width` pixels into
`pixel_buffer`; the `Bool` result records whether the render step found a
buffer of exactly the size it renders into
(`pixel_buffer.len() == physical_width * physical_height`), i.e. whether the
frame could be rendered without a buffer-size mismatch.  A panic leaves the
intermediate state behind and no frame is rendered. -/
def on_frame (p : PanicOracle) (st : BridgeState) : BridgeState × Bool :=
  let body : Except BridgeState BridgeState :=
    match process_cursor_requests p st with
    | Except.error s => Except.error s
    | Except.ok st => callSite p Site.timers id st
  match body with
  | Except.ok st =>
      (st, st.pixel_buffer.length == st.physical_width * st.physical_height)
  | Except.error s => (s, false)

/-- Embeds `SlintWindowHandler::new` (window_handler.rs lines 99–216): compute the
physical size from the reported logical size and the scale factor, size the
softbuffer surface (clamping each dimension to at least 1 via `unwrap_or`),
dispatch `ScaleFactorChanged` and then `WindowActiveChanged(true)` to the new
Slint window, set its size, and allocate the pixel buffer with
`physical_width * physical_height` (wrapping `u32` multiplication) default
pixels. -/
def mkHandlerState (slint_state : SlintState) (scale_factor : ℚ) : BridgeState :=
  let reported := slint_state.reportedSize
  let physical_width := rustCastU32 (rustRound ((reported.1 : ℚ) * scale_factor))
  let physical_height := rustCastU32 (rustRound ((reported.2 : ℚ) * scale_factor))
  let pixel_count := physical_width * physical_height % 2 ^ 32
  { slintStateSize := slint_state.size
    physical_width := physical_width
    physical_height := physical_height
    scale_factor := scale_factor
    pixel_buffer := List.replicate pixel_count Rgb8Pixel.default
    last_mouse_position := ⟨0, 0⟩
    mouse_button_pressed := false
    mouse_request := none
    unbounded_active := false
    surface_width := max physical_width 1
    surface_height := max physical_height 1
    slint_size := (physical_width, physical_height)
    host_unbounded := false
    dispatched := [WindowEvent.scaleFactorChanged scale_factor,
                   WindowEvent.windowActiveChanged true]
    host_cursor_calls := [] }

/-- A small concrete bridge state used by witnesses and counterexamples: a
10×10 window at scale factor 1 with a matching 100-pixel buffer (the state
`SlintWindowHandler::new` produces for a 10×10 logical size at scale 1, up to
the initial dispatch log; see `mkHandlerState_baseState`). -/
def baseState : BridgeState :=
  { slintStateSize := (10, 10)
    physical_width := 10
    physical_height := 10
    scale_factor := 1
    pixel_buffer := List.replicate 100 Rgb8Pixel.default
    last_mouse_position := ⟨0, 0⟩
    mouse_button_pressed := false
    mouse_request := none
    unbounded_active := false
    surface_width := 10
    surface_height := 10
    slint_size := (10, 10)
    host_unbounded := false
    dispatched := []
    host_cursor_calls := [] }

/-- Like `baseState`, but for a host scale factor of 2: 10×10 logical, 20×20
physical (the state `SlintWindowHandler::new` produces at scale factor 2, up
to the initial dispatch log; see `mkHandlerState_scale2State`). -/
def scale2State : BridgeState :=
  { baseState with
      scale_factor := 2
      physical_width := 20
      physical_height := 20
      pixel_buffer := List.replicate 400 Rgb8Pixel.default
      surface_width := 20
      surface_height := 20
      slint_size := (20, 20) }

/-- The render-consistency condition: the pixel buffer has exactly the
`physical_width * physical_height` elements the renderer and the blit loop
assume. -/
def can_render (st : BridgeState) : Bool :=
  st.pixel_buffer.length == st.physical_width * st.physical_height

/-- Shorthand: the bridge state after a resize event handled without panics. -/
def applyResize (st : BridgeState) (info : WindowInfo) : BridgeState :=
  (on_event noPanics st (Event.window (BaseviewWindowEvent.resized info))).1

/-- Embeds `SlintEditor` from `editor.rs`, restricted to the state
`set_scale_factor` touches: the shared `SlintState` and the
`AtomicCell<Option<f32>>` scaling factor. -/
structure SlintEditor where
  slint_state : SlintState
  scaling_factor : Option ℚ
  deriving DecidableEq, Repr

/-- Embeds `SlintEditor::set_scale_factor` (editor.rs lines 156–165): refuse (return
`false`, store nothing) while the editor window is open; otherwise store the
factor and return `true`. -/
def SlintEditor.set_scale_factor (ed : SlintEditor) (factor : ℚ) : SlintEditor × Bool :=
  if ed.slint_state.is_open then (ed, false)
  else ({ ed with scaling_factor := some factor }, true)

/-! ## Helper lemmas -/

/-- The bridge state a step computation ends in, whether it completed or
unwound from a panic. -/
def outS : Except BridgeState BridgeState → BridgeState
  | Except.ok s => s
  | Except.error s => s

/-- The bridge state an entry-point body ends in, completed or unwound. -/
def outA : Except BridgeState (BridgeState × EventStatus) → BridgeState
  | Except.ok r => r.1
  | Except.error s => s

theorem length_listResize (l : List Rgb8Pixel) (n : ℕ) (v : Rgb8Pixel) :
    (listResize l n v).length = n := by
  unfold listResize
  split <;> simp <;> omega

theorem rustCastU32_of_bounds {z : ℤ} (h0 : 0 ≤ z) (h1 : z < 2 ^ 32) :
    rustCastU32 z = z.toNat := by
  simp only [rustCastU32]
  omega

theorem rustRound_eq_of {q : ℚ} {z : ℤ} (h0 : 0 ≤ q) (h1 : (z : ℚ) ≤ q + 1 / 2)
    (h2 : q + 1 / 2 < z + 1) : rustRound q = z := by
  rw [rustRound, if_pos h0, round_eq]
  exact Int.floor_eq_iff.mpr ⟨h1, h2⟩

theorem pcr_out (p : PanicOracle) (s : BridgeState) :
    (outS (process_cursor_requests p s)).dispatched = s.dispatched ∧
    (outS (process_cursor_requests p s)).pixel_buffer = s.pixel_buffer ∧
    (outS (process_cursor_requests p s)).physical_width = s.physical_width ∧
    (outS (process_cursor_requests p s)).physical_height = s.physical_height ∧
    (outS (process_cursor_requests p s)).scale_factor = s.scale_factor ∧
    (outS (process_cursor_requests p s)).surface_width = s.surface_width ∧
    (outS (process_cursor_requests p s)).surface_height = s.surface_height ∧
    (outS (process_cursor_requests p s)).slint_size = s.slint_size ∧
    (outS (process_cursor_requests p s)).last_mouse_position = s.last_mouse_position ∧
    (outS (process_cursor_requests p s)).slintStateSize = s.slintStateSize := by
  rcases h : s.mouse_request with _ | ⟨e, r⟩ <;>
    simp only [process_cursor_requests, take_request, h, callSite]
  · simp [outS]
  · by_cases he : (e && !s.unbounded_active) = true
    · by_cases hp : p Site.cursorHostEnable = true <;> simp [he, hp, outS]
    · by_cases hd : (!e && s.unbounded_active) = true
      · by_cases hp : p Site.cursorHostDisable = true <;> simp [he, hd, hp, outS]
      · simp [he, hd, outS]

theorem on_event_fst (p : PanicOracle) (st : BridgeState) (ev : Event) :
    (on_event p st ev).1 = outA (on_event_run p st ev) := by
  unfold on_event
  cases on_event_run p st ev <;> rfl

theorem on_event_proj {α : Type} (p : PanicOracle) (st : BridgeState) (ev : Event)
    (f : BridgeState → α)
    (hf : ∀ s, f (outS (process_cursor_requests p s)) = f s) :
    f (on_event p st ev).1 = f (outA (on_event_inner p st ev)) := by
  rw [on_event_fst]
  unfold on_event_run
  cases h : on_event_inner p st ev with
  | error s => simp [h, outA]
  | ok r =>
      obtain ⟨s1, status⟩ := r
      have hs := hf s1
      cases h2 : process_cursor_requests p s1 with
      | error s2 =>
          rw [h2] at hs
          simp only [outS] at hs
          simp [h, h2, outA, hs]
      | ok s2 =>
          rw [h2] at hs
          simp only [outS] at hs
          simp [h, h2, outA, hs]

theorem pcr_noPanics_ok (s : BridgeState) :
    process_cursor_requests noPanics s =
      Except.ok (outS (process_cursor_requests noPanics s)) := by
  rcases h : s.mouse_request with _ | ⟨e, r⟩ <;>
    simp only [process_cursor_requests, take_request, h, callSite, noPanics]
  · rfl
  · by_cases he : (e && !s.unbounded_active) = true <;>
    by_cases hd : (!e && s.unbounded_active) = true <;>
      simp [he, hd, outS]

theorem mkHandlerState_baseState :
    mkHandlerState ⟨(10, 10), 1, false⟩ 1 =
      { baseState with dispatched := [WindowEvent.scaleFactorChanged 1,
          WindowEvent.windowActiveChanged true] } := by
  have h10 : rustRound (10 : ℚ) = 10 :=
    rustRound_eq_of (by norm_num) (by norm_num) (by norm_num)
  have hcast : rustCastU32 10 = 10 := by simp [rustCastU32]
  unfold mkHandlerState SlintState.reportedSize SlintState.scaled_logical_size baseState
  norm_num [h10, hcast]

theorem mkHandlerState_scale2State :
    mkHandlerState ⟨(10, 10), 1, false⟩ 2 =
      { scale2State with dispatched := [WindowEvent.scaleFactorChanged 2,
          WindowEvent.windowActiveChanged true] } := by
  have h10 : rustRound (10 : ℚ) = 10 :=
    rustRound_eq_of (by norm_num) (by norm_num) (by norm_num)
  have h20 : rustRound (20 : ℚ) = 20 :=
    rustRound_eq_of (by norm_num) (by norm_num) (by norm_num)
  have hcast10 : rustCastU32 10 = 10 := by simp [rustCastU32]
  have hcast20 : rustCastU32 20 = 20 := by simp [rustCastU32]
  unfold mkHandlerState SlintState.reportedSize SlintState.scaled_logical_size
    scale2State baseState
  norm_num [h10, h20, hcast10, hcast20]

theorem hr_geom (p : PanicOracle) (info : WindowInfo) (st : BridgeState)
    (hp : p Site.scaleFactorDispatch = false) :
    (outS (handleResize p info st)).pixel_buffer.length =
        info.physicalWidth * info.physicalHeight % 2 ^ 32 ∧
    (outS (handleResize p info st)).physical_width = info.physicalWidth ∧
    (outS (handleResize p info st)).physical_height = info.physicalHeight := by
  unfold handleResize dispatchTo callSite
  by_cases hs : scaleDiffers info.scale st.scale_factor <;>
  by_cases h2 : p Site.slintSetSize = true <;>
  by_cases h3 : p Site.resizedDispatch = true <;>
  by_cases hsf : bothNonZero info.physicalWidth info.physicalHeight <;>
    simp_all [outS, length_listResize]

theorem hr_noPanics_ok (info : WindowInfo) (st : BridgeState) :
    handleResize noPanics info st =
      Except.ok (outS (handleResize noPanics info st)) := by
  unfold handleResize dispatchTo callSite noPanics
  by_cases hs : scaleDiffers info.scale st.scale_factor <;>
  by_cases hsf : bothNonZero info.physicalWidth info.physicalHeight <;>
    simp [hs, hsf, outS]

theorem hr_scale (info : WindowInfo) (st : BridgeState)
    (hs : scaleDiffers info.scale st.scale_factor) :
    (outS (handleResize noPanics info st)).scale_factor = info.scale ∧
    (outS (handleResize noPanics info st)).dispatched =
      st.dispatched ++ [WindowEvent.scaleFactorChanged info.scale,
        WindowEvent.resized info.logicalWidth info.logicalHeight] := by
  unfold handleResize dispatchTo callSite noPanics
  by_cases hsf : bothNonZero info.physicalWidth info.physicalHeight <;>
    simp [hs, hsf, outS]

theorem hr_surface (info : WindowInfo) (st : BridgeState) :
    (bothNonZero info.physicalWidth info.physicalHeight →
      (outS (handleResize noPanics info st)).surface_width = info.physicalWidth ∧
      (outS (handleResize noPanics info st)).surface_height = info.physicalHeight) ∧
    (¬ bothNonZero info.physicalWidth info.physicalHeight →
      (outS (handleResize noPanics info st)).surface_width = st.surface_width ∧
      (outS (handleResize noPanics info st)).surface_height = st.surface_height) ∧
    (outS (handleResize noPanics info st)).slint_size =
      (info.physicalWidth, info.physicalHeight) := by
  unfold handleResize dispatchTo callSite noPanics
  by_cases hs : scaleDiffers info.scale st.scale_factor <;>
  by_cases hsf : bothNonZero info.physicalWidth info.physicalHeight <;>
    simp [hs, hsf, outS]

theorem inner_resized_eq (p : PanicOracle) (st : BridgeState) (info : WindowInfo) :
    on_event_inner p st (Event.window (BaseviewWindowEvent.resized info)) =
      match handleResize p info st with
      | Except.error s => Except.error s
      | Except.ok st1 =>
        match dispatchTo p Site.mainDispatch
            (WindowEvent.resized info.logicalWidth info.logicalHeight) st1 with
        | Except.error s => Except.error s
        | Except.ok st2 =>
          match callSite p Site.timers id st2 with
          | Except.error s => Except.error s
          | Except.ok st3 => Except.ok (st3, EventStatus.captured) := rfl

theorem inner_resized_noPanics (st : BridgeState) (info : WindowInfo) :
    on_event_inner noPanics st (Event.window (BaseviewWindowEvent.resized info)) =
      Except.ok ({ outS (handleResize noPanics info st) with
          dispatched := (outS (handleResize noPanics info st)).dispatched ++
            [WindowEvent.resized info.logicalWidth info.logicalHeight] },
        EventStatus.captured) := by
  rw [inner_resized_eq, hr_noPanics_ok]
  rfl

theorem inner_resized_geom (p : PanicOracle) (st : BridgeState) (info : WindowInfo) :
    (outA (on_event_inner p st (Event.window (BaseviewWindowEvent.resized info)))).pixel_buffer
        = (outS (handleResize p info st)).pixel_buffer ∧
    (outA (on_event_inner p st (Event.window (BaseviewWindowEvent.resized info)))).physical_width
        = (outS (handleResize p info st)).physical_width ∧
    (outA (on_event_inner p st (Event.window (BaseviewWindowEvent.resized info)))).physical_height
        = (outS (handleResize p info st)).physical_height := by
  rw [inner_resized_eq]
  cases h : handleResize p info st with
  | error s => simp [outA, outS]
  | ok st1 =>
      by_cases h2 : p Site.mainDispatch = true <;>
      by_cases h3 : p Site.timers = true <;>
        simp [outA, outS, dispatchTo, callSite, h2, h3]

theorem inner_geom_nonresize (p : PanicOracle) (st : BridgeState) (ev : Event)
    (h : ∀ info, ev ≠ Event.window (BaseviewWindowEvent.resized info)) :
    (outA (on_event_inner p st ev)).pixel_buffer = st.pixel_buffer ∧
    (outA (on_event_inner p st ev)).physical_width = st.physical_width ∧
    (outA (on_event_inner p st ev)).physical_height = st.physical_height := by
  rcases ev with e | ⟨ks, k⟩ | we
  · rcases e with pos | b | b | d | _ | _ | _ | _ | _ | _ <;>
      first
        | (cases b <;>
            (unfold on_event_inner
             dsimp only [translate_event, translate_mouse_event, translate_mouse_button,
               backfillPosition, dispatchTo, callSite]
             first
               | (split_ifs <;> simp [outA])
               | simp [outA]))
        | (cases d <;>
            (unfold on_event_inner
             dsimp only [translate_event, translate_mouse_event, backfillPosition,
               dispatchTo, callSite]
             first
               | (split_ifs <;> simp [outA])
               | simp [outA]))
        | (unfold on_event_inner
           dsimp only [translate_event, translate_mouse_event, backfillPosition,
             dispatchTo, callSite]
           first
             | (split_ifs <;> simp [outA])
             | simp [outA])
  · cases ks <;>
      (unfold on_event_inner
       dsimp only [translate_event, translate_keyboard_event, backfillPosition,
         dispatchTo, callSite]
       first
         | (split_ifs <;> simp [outA])
         | simp [outA])
  · rcases we with info | _ | _ | _
    · exact absurd rfl (h info)
    all_goals
      (unfold on_event_inner
       dsimp only [translate_event, translate_window_event, backfillPosition,
         dispatchTo, callSite]
       first
         | (split_ifs <;> simp [outA])
         | simp [outA])

theorem on_frame_snd (st : BridgeState) :
    (on_frame noPanics st).2 =
      (st.pixel_buffer.length == st.physical_width * st.physical_height) := by
  obtain ⟨-, hbuf, hpw, hph, -⟩ := pcr_out noPanics st
  unfold on_frame
  rw [pcr_noPanics_ok st]
  dsimp only [callSite, noPanics]
  simp [hbuf, hpw, hph]

theorem panicked_ignored (p : PanicOracle) (st : BridgeState) (ev : Event) :
    on_event_panicked p st ev = true → (on_event p st ev).2 = EventStatus.ignored := by
  unfold on_event_panicked on_event
  cases h : on_event_run p st ev <;> simp

theorem on_event_of_inner_error {p : PanicOracle} {st s : BridgeState} {ev : Event}
    (h : on_event_inner p st ev = Except.error s) :
    on_event p st ev = (s, EventStatus.ignored) := by
  unfold on_event on_event_run
  rw [h]

/-- An oracle for the run in which exactly the `ScaleFactorChanged` dispatch
inside the resize path panics. -/
def scalePanicOracle : PanicOracle := fun s => s == Site.scaleFactorDispatch

theorem hr_panic_scale (p : PanicOracle) (info : WindowInfo) (st : BridgeState)
    (hp : p Site.scaleFactorDispatch = true)
    (hs : scaleDiffers info.scale st.scale_factor) :
    handleResize p info st = Except.error { st with
      slintStateSize := (rustCastU32 (rustRound info.logicalWidth),
        rustCastU32 (rustRound info.logicalHeight)),
      physical_width := info.physicalWidth,
      physical_height := info.physicalHeight,
      scale_factor := info.scale } := by
  unfold handleResize dispatchTo callSite
  simp [hs, hp]

theorem inner_cursorMoved (st : BridgeState) (pos : LogicalPosition) :
    on_event_inner noPanics st (Event.mouse (MouseEvent.cursorMoved pos)) =
      Except.ok
        ({ st with
            last_mouse_position := ⟨max pos.x 0, max pos.y 0⟩,
            dispatched := st.dispatched ++
              [WindowEvent.pointerMoved
                ⟨pos.x / st.scale_factor, pos.y / st.scale_factor⟩] },
         EventStatus.captured) := rfl

theorem inner_buttonPressed (st : BridgeState) (b : MouseButton) :
    on_event_inner noPanics st (Event.mouse (MouseEvent.buttonPressed b)) =
      Except.ok
        ({ st with
            mouse_button_pressed := true,
            dispatched := st.dispatched ++
              [WindowEvent.pointerPressed st.last_mouse_position
                ((translate_mouse_button b).getD PointerEventButton.other)] },
         EventStatus.captured) := by
  cases b <;> rfl

theorem inner_buttonReleased (st : BridgeState) (b : MouseButton) :
    on_event_inner noPanics st (Event.mouse (MouseEvent.buttonReleased b)) =
      Except.ok
        ({ st with
            mouse_button_pressed := false,
            dispatched := st.dispatched ++
              [WindowEvent.pointerReleased st.last_mouse_position
                ((translate_mouse_button b).getD PointerEventButton.other)] },
         EventStatus.captured) := by
  cases b <;> rfl

theorem inner_wheelLines (st : BridgeState) (x y : ℚ) :
    on_event_inner noPanics st
        (Event.mouse (MouseEvent.wheelScrolled (ScrollDelta.lines x y))) =
      Except.ok
        ({ st with
            dispatched := st.dispatched ++
              [WindowEvent.pointerScrolled st.last_mouse_position (x * 20) (y * 20)] },
         EventStatus.captured) := rfl

theorem inner_wheelPixels (st : BridgeState) (x y : ℚ) :
    on_event_inner noPanics st
        (Event.mouse (MouseEvent.wheelScrolled (ScrollDelta.pixels x y))) =
      Except.ok
        ({ st with
            dispatched := st.dispatched ++
              [WindowEvent.pointerScrolled st.last_mouse_position x y] },
         EventStatus.captured) := rfl

/-! ## Claims -/

/-- C1 (amended): for every stored logical size `(w, h)` and user scale factor
`s`, as long as the two rounded products are representable in `u32`
(`0 ≤ round(w*s), round(h*s) < 2^32`), the size reported to the host by
`SlintState::size()` equals `(round(w*s), round(h*s))`.  Outside that range the
`as u32` cast saturates, which is what refutes the unrestricted claim
(`C1_counterexample`). -/
theorem C1_reported_size (s : SlintState)
    (hw0 : 0 ≤ rustRound ((s.size.1 : ℚ) * s.user_scale_factor))
    (hw1 : rustRound ((s.size.1 : ℚ) * s.user_scale_factor) < 2 ^ 32)
    (hh0 : 0 ≤ rustRound ((s.size.2 : ℚ) * s.user_scale_factor))
    (hh1 : rustRound ((s.size.2 : ℚ) * s.user_scale_factor) < 2 ^ 32) :
    s.reportedSize =
      ((rustRound ((s.size.1 : ℚ) * s.user_scale_factor)).toNat,
       (rustRound ((s.size.2 : ℚ) * s.user_scale_factor)).toNat) := by
  unfold SlintState.reportedSize SlintState.scaled_logical_size
  rw [rustCastU32_of_bounds hw0 hw1, rustCastU32_of_bounds hh0 hh1]

/-- C1 witness: logical size `(300, 200)` at user scale `3/2` is reported as
`(round 450, round 300) = (450, 300)`. -/
theorem C1_witness :
    0 ≤ rustRound (((300 : ℕ) : ℚ) * (3 / 2)) ∧
    rustRound (((300 : ℕ) : ℚ) * (3 / 2)) < 2 ^ 32 ∧
    0 ≤ rustRound (((200 : ℕ) : ℚ) * (3 / 2)) ∧
    rustRound (((200 : ℕ) : ℚ) * (3 / 2)) < 2 ^ 32 ∧
    SlintState.reportedSize ⟨(300, 200), 3 / 2, false⟩ =
      ((rustRound (((300 : ℕ) : ℚ) * (3 / 2))).toNat,
       (rustRound (((200 : ℕ) : ℚ) * (3 / 2))).toNat) := by
  have h300 : rustRound (((300 : ℕ) : ℚ) * (3 / 2)) = 450 := by
    apply rustRound_eq_of <;> norm_num
  have h200 : rustRound (((200 : ℕ) : ℚ) * (3 / 2)) = 300 := by
    apply rustRound_eq_of <;> norm_num
  refine ⟨by rw [h300]; norm_num, by rw [h300]; norm_num,
          by rw [h200]; norm_num, by rw [h200]; norm_num, ?_⟩
  exact C1_reported_size ⟨(300, 200), 3 / 2, false⟩
    (by rw [h300]; norm_num) (by rw [h300]; norm_num)
    (by rw [h200]; norm_num) (by rw [h200]; norm_num)

/-- C1 counterexample: at stored logical size `(2^31, 1)` and user scale `2`,
`round(w*s) = 2^32` does not fit in `u32`; the code reports the saturated value
`2^32 - 1`, not `round(w*s)`, so the claim as stated (for *every* size and
scale) is false. -/
theorem C1_counterexample :
    ((SlintState.reportedSize ⟨(2 ^ 31, 1), 2, false⟩).1 : ℤ) ≠
      rustRound (((2 ^ 31 : ℕ) : ℚ) * 2) := by
  have h : rustRound (((2 ^ 31 : ℕ) : ℚ) * 2) = 2 ^ 32 := by
    apply rustRound_eq_of <;> norm_num
  unfold SlintState.reportedSize SlintState.scaled_logical_size
  simp only [h]
  unfold rustCastU32
  norm_num

/-- C5: the cursor control channel is a last-write-wins single slot:
`request_enable` then `request_disable` before any poll leaves a pending
disable request; `request_enable(true)` twice is the same slot state as once;
and `take_request` empties the slot. -/
theorem C5_mailbox (slot : MouseRequestSlot) (restore : Bool) :
    (take_request (disable_unbounded_movement (enable_unbounded_movement slot restore))).1 =
        some (false, false) ∧
    enable_unbounded_movement (enable_unbounded_movement slot true) true =
        enable_unbounded_movement slot true ∧
    (take_request slot).2 = none :=
  ⟨rfl, rfl, rfl⟩

/-- C10: `set_scale_factor(f)` returns `false` and stores nothing while the
editor window is open, and stores `Some(f)` and returns `true` while it is
closed. -/
theorem C10_set_scale_factor (ed : SlintEditor) (factor : ℚ) :
    (ed.slint_state.is_open = true → ed.set_scale_factor factor = (ed, false)) ∧
    (ed.slint_state.is_open = false →
      ed.set_scale_factor factor = ({ ed with scaling_factor := some factor }, true)) := by
  constructor <;> intro h <;> simp [SlintEditor.set_scale_factor, h]

/-- C10 witness: with the window open the factor `2` is rejected; with it
closed the factor is stored and accepted. -/
theorem C10_witness :
    ((⟨⟨(1, 1), 1, true⟩, none⟩ : SlintEditor).slint_state.is_open = true) ∧
    SlintEditor.set_scale_factor ⟨⟨(1, 1), 1, true⟩, none⟩ 2 =
      (⟨⟨(1, 1), 1, true⟩, none⟩, false) ∧
    ((⟨⟨(1, 1), 1, false⟩, none⟩ : SlintEditor).slint_state.is_open = false) ∧
    SlintEditor.set_scale_factor ⟨⟨(1, 1), 1, false⟩, none⟩ 2 =
      (⟨⟨(1, 1), 1, false⟩, some 2⟩, true) :=
  ⟨rfl, (C10_set_scale_factor ⟨⟨(1, 1), 1, true⟩, none⟩ 2).1 rfl, rfl,
   (C10_set_scale_factor ⟨⟨(1, 1), 1, false⟩, none⟩ 2).2 rfl⟩

/-- C8: applying an enable request while unbounded mode is already active, or a
disable request while it is already inactive, performs no host-level
cursor-mode change, and `unbounded_active` keeps mirroring the host's actual
mode through `process_cursor_requests`. -/
theorem C8_cursor_idempotent (st : BridgeState)
    (hmirror : st.unbounded_active = st.host_unbounded) :
    (∀ restore, st.mouse_request = some (true, restore) → st.unbounded_active = true →
      (outS (process_cursor_requests noPanics st)).host_cursor_calls = st.host_cursor_calls ∧
      (outS (process_cursor_requests noPanics st)).host_unbounded = st.host_unbounded) ∧
    (∀ restore, st.mouse_request = some (false, restore) → st.unbounded_active = false →
      (outS (process_cursor_requests noPanics st)).host_cursor_calls = st.host_cursor_calls ∧
      (outS (process_cursor_requests noPanics st)).host_unbounded = st.host_unbounded) ∧
    (outS (process_cursor_requests noPanics st)).unbounded_active =
      (outS (process_cursor_requests noPanics st)).host_unbounded := by
  refine ⟨?_, ?_, ?_⟩
  · intro restore hreq hact
    simp [process_cursor_requests, take_request, hreq, hact, callSite, noPanics, outS]
  · intro restore hreq hact
    simp [process_cursor_requests, take_request, hreq, hact, callSite, noPanics, outS]
  · rcases h : st.mouse_request with _ | ⟨e, r⟩ <;>
      simp only [process_cursor_requests, take_request, h, callSite, noPanics]
    · simpa [outS] using hmirror
    · by_cases he : (e && !st.unbounded_active) = true
      · simp [he, outS]
      · by_cases hd : (!e && st.unbounded_active) = true
        · simp [he, hd, outS]
        · simpa [he, hd, outS] using hmirror

/-- C8 witness: an enable request arriving while unbounded mode is already
active (and mirrored by the host) causes no host cursor call. -/
theorem C8_witness :
    (({ mkHandlerState ⟨(10, 10), 1, false⟩ 1 with
        mouse_request := some (true, true), unbounded_active := true,
        host_unbounded := true } : BridgeState).unbounded_active =
      ({ mkHandlerState ⟨(10, 10), 1, false⟩ 1 with
        mouse_request := some (true, true), unbounded_active := true,
        host_unbounded := true } : BridgeState).host_unbounded) ∧
    (outS (process_cursor_requests noPanics
      { mkHandlerState ⟨(10, 10), 1, false⟩ 1 with
        mouse_request := some (true, true), unbounded_active := true,
        host_unbounded := true })).host_cursor_calls =
      ({ mkHandlerState ⟨(10, 10), 1, false⟩ 1 with
        mouse_request := some (true, true), unbounded_active := true,
        host_unbounded := true } : BridgeState).host_cursor_calls :=
  ⟨rfl,
   ((C8_cursor_idempotent _ rfl).1 true rfl rfl).1⟩

/-- C4: on a host resize whose scale factor differs from the cached one by
more than the 0.001 epsilon (`scaleDiffers`), the bridge updates its cached
scale factor to the host's value, and the dispatch log shows the
`ScaleFactorChanged` notification strictly before the `Resized` (logical size)
notifications (the translated resize event is dispatched a second time by the
generic translate-and-dispatch step, also after the scale change). -/
theorem C4_scale_before_resized (st : BridgeState) (info : WindowInfo)
    (hscale : scaleDiffers info.scale st.scale_factor) :
    (applyResize st info).scale_factor = info.scale ∧
    (applyResize st info).dispatched = st.dispatched ++
      [WindowEvent.scaleFactorChanged info.scale,
       WindowEvent.resized info.logicalWidth info.logicalHeight,
       WindowEvent.resized info.logicalWidth info.logicalHeight] := by
  unfold applyResize
  constructor
  · rw [on_event_proj noPanics st _ BridgeState.scale_factor
      (fun s => (pcr_out noPanics s).2.2.2.2.1)]
    rw [inner_resized_noPanics]
    dsimp [outA]
    exact (hr_scale info st hscale).1
  · rw [on_event_proj noPanics st _ BridgeState.dispatched
      (fun s => (pcr_out noPanics s).1)]
    rw [inner_resized_noPanics]
    dsimp [outA]
    rw [(hr_scale info st hscale).2]
    simp

/-- C4 witness: resizing the 10×10 scale-1 state to physical 20×20 at host
scale 2 updates the cache to 2 and dispatches the scale change first. -/
theorem C4_witness :
    scaleDiffers 2 baseState.scale_factor ∧
    (applyResize baseState ⟨10, 10, 20, 20, 2⟩).scale_factor = 2 ∧
    (applyResize baseState ⟨10, 10, 20, 20, 2⟩).dispatched =
      baseState.dispatched ++
        [WindowEvent.scaleFactorChanged 2, WindowEvent.resized 10 10,
         WindowEvent.resized 10 10] := by
  have hs : scaleDiffers 2 baseState.scale_factor := by
    norm_num [scaleDiffers, baseState]
  exact ⟨hs, (C4_scale_before_resized baseState ⟨10, 10, 20, 20, 2⟩ hs).1,
    (C4_scale_before_resized baseState ⟨10, 10, 20, 20, 2⟩ hs).2⟩

/-- C3 (amended): after a completed (panic-free) resize to physical
`(pw, ph)`, the pixel buffer length equals `pw * ph` provided the `u32`
product does not wrap (`pw * ph < 2^32`); likewise after window-handler
construction.  The source computes the count with a `u32` multiplication, so
without that proviso the stated invariant fails (`C3_counterexample`: in
release mode the product wraps; in debug mode the multiplication panics,
which `catch_unwind` also turns into a state whose buffer was never resized). -/
theorem C3_buffer_length (st : BridgeState) (info : WindowInfo)
    (hfit : info.physicalWidth * info.physicalHeight < 2 ^ 32)
    (slint_state : SlintState) (scale_factor : ℚ)
    (hfit2 : (mkHandlerState slint_state scale_factor).physical_width *
        (mkHandlerState slint_state scale_factor).physical_height < 2 ^ 32) :
    (applyResize st info).pixel_buffer.length =
        info.physicalWidth * info.physicalHeight ∧
    (mkHandlerState slint_state scale_factor).pixel_buffer.length =
        (mkHandlerState slint_state scale_factor).physical_width *
        (mkHandlerState slint_state scale_factor).physical_height := by
  constructor
  · unfold applyResize
    rw [on_event_proj noPanics st _ BridgeState.pixel_buffer
      (fun s => (pcr_out noPanics s).2.1)]
    rw [(inner_resized_geom noPanics st info).1]
    rw [(hr_geom noPanics info st rfl).1]
    exact Nat.mod_eq_of_lt hfit
  · have hb : (mkHandlerState slint_state scale_factor).pixel_buffer =
        List.replicate ((mkHandlerState slint_state scale_factor).physical_width *
          (mkHandlerState slint_state scale_factor).physical_height % 2 ^ 32)
          Rgb8Pixel.default := rfl
    rw [hb, List.length_replicate]
    exact Nat.mod_eq_of_lt hfit2

/-- C3 witness: resizing the base state to 20×20 leaves a 400-pixel buffer,
and the freshly constructed 10×10 handler state satisfies the invariant. -/
theorem C3_witness :
    (20 * 20 < 2 ^ 32) ∧
    ((mkHandlerState ⟨(10, 10), 1, false⟩ 1).physical_width *
      (mkHandlerState ⟨(10, 10), 1, false⟩ 1).physical_height < 2 ^ 32) ∧
    (applyResize baseState ⟨20, 20, 20, 20, 1⟩).pixel_buffer.length = 20 * 20 ∧
    (mkHandlerState ⟨(10, 10), 1, false⟩ 1).pixel_buffer.length =
      (mkHandlerState ⟨(10, 10), 1, false⟩ 1).physical_width *
      (mkHandlerState ⟨(10, 10), 1, false⟩ 1).physical_height := by
  have hfit2 : (mkHandlerState ⟨(10, 10), 1, false⟩ 1).physical_width *
      (mkHandlerState ⟨(10, 10), 1, false⟩ 1).physical_height < 2 ^ 32 := by
    rw [mkHandlerState_baseState]
    norm_num [baseState]
  exact ⟨by norm_num, hfit2,
    (C3_buffer_length baseState ⟨20, 20, 20, 20, 1⟩ (by norm_num)
      ⟨(10, 10), 1, false⟩ 1 hfit2).1,
    (C3_buffer_length baseState ⟨20, 20, 20, 20, 1⟩ (by norm_num)
      ⟨(10, 10), 1, false⟩ 1 hfit2).2⟩

/-- C3 counterexample: resizing to physical `65536 × 65536` (both positive)
leaves a pixel buffer of length `65536 * 65536 % 2^32 = 0`, not
`65536 * 65536`, because the `u32` pixel-count multiplication wraps. -/
theorem C3_counterexample :
    0 < 65536 ∧
    (applyResize baseState ⟨65536, 65536, 65536, 65536, 1⟩).pixel_buffer.length = 0 ∧
    (0 : ℕ) ≠ 65536 * 65536 := by
  refine ⟨by norm_num, ?_, by norm_num⟩
  unfold applyResize
  rw [on_event_proj noPanics baseState _ BridgeState.pixel_buffer
    (fun s => (pcr_out noPanics s).2.1)]
  rw [(inner_resized_geom noPanics baseState ⟨65536, 65536, 65536, 65536, 1⟩).1]
  rw [(hr_geom noPanics ⟨65536, 65536, 65536, 65536, 1⟩ baseState rfl).1]
  norm_num

/-- C2 (amended): every panic raised at one of the modelled foreign-call sites
inside `on_event` is caught and turned into an `Ignored` status, and the
bridge stays render-consistent (the next `on_frame` finds a pixel buffer of
exactly `physical_width * physical_height` pixels) — provided the panic is not
the `ScaleFactorChanged` dispatch inside the resize path and, for resize
events, the `u32` pixel count does not wrap.  A panic in that scale-factor
dispatch is still converted to `Ignored`, but it strands the buffer at its old
size while the physical dimensions have already been updated, so a subsequent
`on_frame` cannot render (`C2_counterexample`). -/
theorem C2_panic_contained (p : PanicOracle) (st : BridgeState) (ev : Event)
    (hbuf : st.pixel_buffer.length = st.physical_width * st.physical_height)
    (hfit : ∀ info, ev = Event.window (BaseviewWindowEvent.resized info) →
      info.physicalWidth * info.physicalHeight < 2 ^ 32)
    (hsite : p Site.scaleFactorDispatch = false) :
    (on_event_panicked p st ev = true → (on_event p st ev).2 = EventStatus.ignored) ∧
    (on_frame noPanics (on_event p st ev).1).2 = true := by
  refine ⟨panicked_ignored p st ev, ?_⟩
  rw [on_frame_snd]
  have hb := on_event_proj p st ev BridgeState.pixel_buffer
    (fun s => (pcr_out p s).2.1)
  have hw := on_event_proj p st ev BridgeState.physical_width
    (fun s => (pcr_out p s).2.2.1)
  have hh := on_event_proj p st ev BridgeState.physical_height
    (fun s => (pcr_out p s).2.2.2.1)
  by_cases hres : ∃ info, ev = Event.window (BaseviewWindowEvent.resized info)
  · obtain ⟨info, rfl⟩ := hres
    obtain ⟨g1, g2, g3⟩ := inner_resized_geom p st info
    obtain ⟨k1, k2, k3⟩ := hr_geom p info st hsite
    rw [hb, hw, hh, g1, g2, g3, k2, k3, k1, Nat.mod_eq_of_lt (hfit info rfl)]
    simp
  · have hne : ∀ info, ev ≠ Event.window (BaseviewWindowEvent.resized info) :=
      fun info h => hres ⟨info, h⟩
    obtain ⟨g1, g2, g3⟩ := inner_geom_nonresize p st ev hne
    rw [hb, hw, hh, g1, g2, g3, hbuf]
    simp

/-- C2 witness: an ordinary pointer-moved event on the consistent base state
keeps the bridge renderable (and the panic clause holds vacuously). -/
theorem C2_witness :
    (baseState.pixel_buffer.length =
      baseState.physical_width * baseState.physical_height) ∧
    (noPanics Site.scaleFactorDispatch = false) ∧
    ((on_event_panicked noPanics baseState (Event.mouse (MouseEvent.cursorMoved ⟨1, 2⟩)) = true →
        (on_event noPanics baseState (Event.mouse (MouseEvent.cursorMoved ⟨1, 2⟩))).2 =
          EventStatus.ignored) ∧
     (on_frame noPanics
        (on_event noPanics baseState (Event.mouse (MouseEvent.cursorMoved ⟨1, 2⟩))).1).2 = true) := by
  have hbuf : baseState.pixel_buffer.length =
      baseState.physical_width * baseState.physical_height := by
    simp [baseState]
  exact ⟨hbuf, rfl,
    C2_panic_contained noPanics baseState (Event.mouse (MouseEvent.cursorMoved ⟨1, 2⟩))
      hbuf (fun info h => nomatch h) rfl⟩

/-- C2 counterexample: with a panic injected into the `ScaleFactorChanged`
dispatch of a 10×10 → 20×20 resize, `on_event` still returns `Ignored`, but
the stranded state has a 100-pixel buffer against 20×20 physical dimensions,
so the next `on_frame` cannot render — refuting the claim that the bridge
state stays consistent for every panic site. -/
theorem C2_counterexample :
    (on_event scalePanicOracle baseState
        (Event.window (BaseviewWindowEvent.resized ⟨10, 10, 20, 20, 2⟩))).2 =
      EventStatus.ignored ∧
    (on_frame noPanics
        (on_event scalePanicOracle baseState
          (Event.window (BaseviewWindowEvent.resized ⟨10, 10, 20, 20, 2⟩))).1).2 = false := by
  have hs : scaleDiffers (2 : ℚ) baseState.scale_factor := by
    norm_num [scaleDiffers, baseState]
  have herr := hr_panic_scale scalePanicOracle ⟨10, 10, 20, 20, 2⟩ baseState rfl hs
  have hinner :
      on_event_inner scalePanicOracle baseState
        (Event.window (BaseviewWindowEvent.resized ⟨10, 10, 20, 20, 2⟩)) =
      Except.error { baseState with
        slintStateSize := (rustCastU32 (rustRound 10), rustCastU32 (rustRound 10)),
        physical_width := 20,
        physical_height := 20,
        scale_factor := 2 } := by
    rw [inner_resized_eq, herr]
  rw [on_event_of_inner_error hinner]
  refine ⟨rfl, ?_⟩
  rw [on_frame_snd]
  simp [baseState]

/-- C6: button-pressed, button-released and scrolled host events are
dispatched with their position back-filled from the cached last-known pointer
position; at construction the cache is the origin `(0,0)`; and after a
pointer-moved to `(42,17)` at scale factor 1 a subsequent button-pressed
back-fills to `(42,17)`. -/
theorem C6_position_backfill :
    (∀ (st : BridgeState) (b : MouseButton) (btn : PointerEventButton),
      translate_mouse_button b = some btn →
      (on_event noPanics st (Event.mouse (MouseEvent.buttonPressed b))).1.dispatched =
        st.dispatched ++ [WindowEvent.pointerPressed st.last_mouse_position btn]) ∧
    (∀ (st : BridgeState) (b : MouseButton) (btn : PointerEventButton),
      translate_mouse_button b = some btn →
      (on_event noPanics st (Event.mouse (MouseEvent.buttonReleased b))).1.dispatched =
        st.dispatched ++ [WindowEvent.pointerReleased st.last_mouse_position btn]) ∧
    (∀ (st : BridgeState) (x y : ℚ),
      (on_event noPanics st
          (Event.mouse (MouseEvent.wheelScrolled (ScrollDelta.pixels x y)))).1.dispatched =
        st.dispatched ++ [WindowEvent.pointerScrolled st.last_mouse_position x y]) ∧
    (∀ (st : BridgeState) (x y : ℚ),
      (on_event noPanics st
          (Event.mouse (MouseEvent.wheelScrolled (ScrollDelta.lines x y)))).1.dispatched =
        st.dispatched ++
          [WindowEvent.pointerScrolled st.last_mouse_position (x * 20) (y * 20)]) ∧
    (∀ (slint_state : SlintState) (scale_factor : ℚ),
      (mkHandlerState slint_state scale_factor).last_mouse_position = ⟨0, 0⟩) ∧
    ((on_event noPanics
        (on_event noPanics baseState (Event.mouse (MouseEvent.cursorMoved ⟨42, 17⟩))).1
        (Event.mouse (MouseEvent.buttonPressed MouseButton.left))).1.dispatched =
      (on_event noPanics baseState (Event.mouse (MouseEvent.cursorMoved ⟨42, 17⟩))).1.dispatched ++
        [WindowEvent.pointerPressed ⟨42, 17⟩ PointerEventButton.left]) := by
  have hbp : ∀ (st : BridgeState) (b : MouseButton) (btn : PointerEventButton),
      translate_mouse_button b = some btn →
      (on_event noPanics st (Event.mouse (MouseEvent.buttonPressed b))).1.dispatched =
        st.dispatched ++ [WindowEvent.pointerPressed st.last_mouse_position btn] := by
    intro st b btn hb
    rw [on_event_proj noPanics st _ BridgeState.dispatched
      (fun s => (pcr_out noPanics s).1)]
    rw [inner_buttonPressed]
    dsimp [outA]
    simp [hb]
  have hbr : ∀ (st : BridgeState) (b : MouseButton) (btn : PointerEventButton),
      translate_mouse_button b = some btn →
      (on_event noPanics st (Event.mouse (MouseEvent.buttonReleased b))).1.dispatched =
        st.dispatched ++ [WindowEvent.pointerReleased st.last_mouse_position btn] := by
    intro st b btn hb
    rw [on_event_proj noPanics st _ BridgeState.dispatched
      (fun s => (pcr_out noPanics s).1)]
    rw [inner_buttonReleased]
    dsimp [outA]
    simp [hb]
  have hwp : ∀ (st : BridgeState) (x y : ℚ),
      (on_event noPanics st
          (Event.mouse (MouseEvent.wheelScrolled (ScrollDelta.pixels x y)))).1.dispatched =
        st.dispatched ++ [WindowEvent.pointerScrolled st.last_mouse_position x y] := by
    intro st x y
    rw [on_event_proj noPanics st _ BridgeState.dispatched
      (fun s => (pcr_out noPanics s).1)]
    rw [inner_wheelPixels]
    rfl
  have hwl : ∀ (st : BridgeState) (x y : ℚ),
      (on_event noPanics st
          (Event.mouse (MouseEvent.wheelScrolled (ScrollDelta.lines x y)))).1.dispatched =
        st.dispatched ++
          [WindowEvent.pointerScrolled st.last_mouse_position (x * 20) (y * 20)] := by
    intro st x y
    rw [on_event_proj noPanics st _ BridgeState.dispatched
      (fun s => (pcr_out noPanics s).1)]
    rw [inner_wheelLines]
    rfl
  refine ⟨hbp, hbr, hwp, hwl, fun _ _ => rfl, ?_⟩
  have hl1 : (on_event noPanics baseState
      (Event.mouse (MouseEvent.cursorMoved ⟨42, 17⟩))).1.last_mouse_position = ⟨42, 17⟩ := by
    rw [on_event_proj noPanics baseState _ BridgeState.last_mouse_position
      (fun s => (pcr_out noPanics s).2.2.2.2.2.2.2.2.1)]
    rw [inner_cursorMoved]
    dsimp [outA]
    norm_num
  have hstep := hbp (on_event noPanics baseState
      (Event.mouse (MouseEvent.cursorMoved ⟨42, 17⟩))).1
    MouseButton.left PointerEventButton.left rfl
  rw [hl1] at hstep
  exact hstep

/-- C6 witness: with no prior pointer movement, a left-button press on the
base state back-fills the origin position. -/
theorem C6_witness :
    translate_mouse_button MouseButton.left = some PointerEventButton.left ∧
    baseState.last_mouse_position = ⟨0, 0⟩ ∧
    (on_event noPanics baseState
        (Event.mouse (MouseEvent.buttonPressed MouseButton.left))).1.dispatched =
      baseState.dispatched ++
        [WindowEvent.pointerPressed baseState.last_mouse_position PointerEventButton.left] :=
  ⟨rfl, rfl,
    C6_position_backfill.1 baseState MouseButton.left PointerEventButton.left rfl⟩

/-- C7 (amended): a resize to positive physical dimensions whose `u32` pixel
count does not wrap leaves the pixel buffer, the softbuffer surface, and the
Slint window all agreeing on the new physical size.  A resize with a zero
dimension is *not* atomic: the pixel buffer and the Slint window adopt the new
(zero-area) size while the surface keeps its previous dimensions — nothing is
clamped to the last known-good size (`C7_counterexample`). -/
theorem C7_resize_atomicity :
    (∀ (st : BridgeState) (info : WindowInfo),
      0 < info.physicalWidth → 0 < info.physicalHeight →
      info.physicalWidth * info.physicalHeight < 2 ^ 32 →
      (applyResize st info).physical_width = info.physicalWidth ∧
      (applyResize st info).physical_height = info.physicalHeight ∧
      (applyResize st info).surface_width = info.physicalWidth ∧
      (applyResize st info).surface_height = info.physicalHeight ∧
      (applyResize st info).slint_size = (info.physicalWidth, info.physicalHeight) ∧
      (applyResize st info).pixel_buffer.length =
        info.physicalWidth * info.physicalHeight) ∧
    (∀ (st : BridgeState) (info : WindowInfo),
      info.physicalWidth = 0 ∨ info.physicalHeight = 0 →
      (applyResize st info).surface_width = st.surface_width ∧
      (applyResize st info).surface_height = st.surface_height ∧
      (applyResize st info).slint_size = (info.physicalWidth, info.physicalHeight)) := by
  constructor
  · intro st info hw hh hfit
    have hbn : bothNonZero info.physicalWidth info.physicalHeight := ⟨by omega, by omega⟩
    obtain ⟨k1, k2, k3⟩ := hr_geom noPanics info st rfl
    obtain ⟨hsur, -, hsl⟩ := hr_surface info st
    obtain ⟨s1, s2⟩ := hsur hbn
    refine ⟨?_, ?_, ?_, ?_, ?_, ?_⟩ <;> unfold applyResize
    · rw [on_event_proj noPanics st _ BridgeState.physical_width
        (fun s => (pcr_out noPanics s).2.2.1)]
      rw [(inner_resized_geom noPanics st info).2.1, k2]
    · rw [on_event_proj noPanics st _ BridgeState.physical_height
        (fun s => (pcr_out noPanics s).2.2.2.1)]
      rw [(inner_resized_geom noPanics st info).2.2, k3]
    · rw [on_event_proj noPanics st _ BridgeState.surface_width
        (fun s => (pcr_out noPanics s).2.2.2.2.2.1)]
      rw [inner_resized_noPanics]
      exact s1
    · rw [on_event_proj noPanics st _ BridgeState.surface_height
        (fun s => (pcr_out noPanics s).2.2.2.2.2.2.1)]
      rw [inner_resized_noPanics]
      exact s2
    · rw [on_event_proj noPanics st _ BridgeState.slint_size
        (fun s => (pcr_out noPanics s).2.2.2.2.2.2.2.1)]
      rw [inner_resized_noPanics]
      exact hsl
    · rw [on_event_proj noPanics st _ BridgeState.pixel_buffer
        (fun s => (pcr_out noPanics s).2.1)]
      rw [(inner_resized_geom noPanics st info).1, k1]
      exact Nat.mod_eq_of_lt hfit
  · intro st info h0
    have hnb : ¬ bothNonZero info.physicalWidth info.physicalHeight := by
      rintro ⟨a, b⟩
      rcases h0 with h | h
      · exact a h
      · exact b h
    obtain ⟨-, hsur, hsl⟩ := hr_surface info st
    obtain ⟨s1, s2⟩ := hsur hnb
    refine ⟨?_, ?_, ?_⟩ <;> unfold applyResize
    · rw [on_event_proj noPanics st _ BridgeState.surface_width
        (fun s => (pcr_out noPanics s).2.2.2.2.2.1)]
      rw [inner_resized_noPanics]
      exact s1
    · rw [on_event_proj noPanics st _ BridgeState.surface_height
        (fun s => (pcr_out noPanics s).2.2.2.2.2.2.1)]
      rw [inner_resized_noPanics]
      exact s2
    · rw [on_event_proj noPanics st _ BridgeState.slint_size
        (fun s => (pcr_out noPanics s).2.2.2.2.2.2.2.1)]
      rw [inner_resized_noPanics]
      exact hsl

/-- C7 witness: a 20×20 resize of the base state leaves buffer, surface and
Slint window agreeing at 20×20; a 0×5 resize leaves the surface untouched. -/
theorem C7_witness :
    (0 < 20 ∧ 20 * 20 < 2 ^ 32) ∧
    ((applyResize baseState ⟨20, 20, 20, 20, 1⟩).physical_width = 20 ∧
     (applyResize baseState ⟨20, 20, 20, 20, 1⟩).physical_height = 20 ∧
     (applyResize baseState ⟨20, 20, 20, 20, 1⟩).surface_width = 20 ∧
     (applyResize baseState ⟨20, 20, 20, 20, 1⟩).surface_height = 20 ∧
     (applyResize baseState ⟨20, 20, 20, 20, 1⟩).slint_size = (20, 20) ∧
     (applyResize baseState ⟨20, 20, 20, 20, 1⟩).pixel_buffer.length = 20 * 20) ∧
    ((applyResize baseState ⟨0, 5, 0, 5, 1⟩).surface_width = baseState.surface_width ∧
     (applyResize baseState ⟨0, 5, 0, 5, 1⟩).surface_height = baseState.surface_height ∧
     (applyResize baseState ⟨0, 5, 0, 5, 1⟩).slint_size = (0, 5)) :=
  ⟨⟨by norm_num, by norm_num⟩,
   C7_resize_atomicity.1 baseState ⟨20, 20, 20, 20, 1⟩
     (by norm_num) (by norm_num) (by norm_num),
   C7_resize_atomicity.2 baseState ⟨0, 5, 0, 5, 1⟩ (Or.inl rfl)⟩

/-- C7 counterexample: resizing the 10×10 base state to physical `0×5` leaves
the surface at `10×10` while the Slint window takes `(0,5)` and the buffer
takes length `0` — the three disagree, and nothing was clamped to the last
known-good dimensions, refuting the atomicity claim. -/
theorem C7_counterexample :
    (applyResize baseState ⟨0, 5, 0, 5, 1⟩).surface_width = 10 ∧
    (applyResize baseState ⟨0, 5, 0, 5, 1⟩).slint_size = (0, 5) ∧
    (applyResize baseState ⟨0, 5, 0, 5, 1⟩).pixel_buffer.length = 0 ∧
    (10 : ℕ) ≠ 0 := by
  have hnb : ¬ bothNonZero 0 5 := by simp [bothNonZero]
  obtain ⟨-, hsur, hsl⟩ := hr_surface ⟨0, 5, 0, 5, 1⟩ baseState
  refine ⟨?_, ?_, ?_, by norm_num⟩ <;> unfold applyResize
  · rw [on_event_proj noPanics baseState _ BridgeState.surface_width
      (fun s => (pcr_out noPanics s).2.2.2.2.2.1)]
    rw [inner_resized_noPanics]
    exact (hsur hnb).1
  · rw [on_event_proj noPanics baseState _ BridgeState.slint_size
      (fun s => (pcr_out noPanics s).2.2.2.2.2.2.2.1)]
    rw [inner_resized_noPanics]
    exact hsl
  · rw [on_event_proj noPanics baseState _ BridgeState.pixel_buffer
      (fun s => (pcr_out noPanics s).2.1)]
    rw [(inner_resized_geom noPanics baseState ⟨0, 5, 0, 5, 1⟩).1]
    rw [(hr_geom noPanics ⟨0, 5, 0, 5, 1⟩ baseState rfl).1]
    norm_num

/-- C9 (amended): a pointer-moved host event at `(x, y)` with cached scale
factor `s` is dispatched as a pointer-moved UI event at `(x/s, y/s)`, but the
last-known-position cache is updated to the raw clamped position
`(max x 0, max y 0)`, not to the scaled event position; the two coincide
exactly when `s = 1` and the coordinates are non-negative
(`C9_counterexample` shows them differing at `s = 2`). -/
theorem C9_pointer_moved (st : BridgeState) (x y : ℚ) :
    (on_event noPanics st (Event.mouse (MouseEvent.cursorMoved ⟨x, y⟩))).1.dispatched =
      st.dispatched ++
        [WindowEvent.pointerMoved ⟨x / st.scale_factor, y / st.scale_factor⟩] ∧
    (on_event noPanics st (Event.mouse (MouseEvent.cursorMoved ⟨x, y⟩))).1.last_mouse_position =
      ⟨max x 0, max y 0⟩ ∧
    (st.scale_factor = 1 → 0 ≤ x → 0 ≤ y →
      (on_event noPanics st
          (Event.mouse (MouseEvent.cursorMoved ⟨x, y⟩))).1.last_mouse_position =
        ⟨x / st.scale_factor, y / st.scale_factor⟩) := by
  refine ⟨?_, ?_, ?_⟩
  · rw [on_event_proj noPanics st _ BridgeState.dispatched
      (fun s => (pcr_out noPanics s).1)]
    rw [inner_cursorMoved]
    rfl
  · rw [on_event_proj noPanics st _ BridgeState.last_mouse_position
      (fun s => (pcr_out noPanics s).2.2.2.2.2.2.2.2.1)]
    rw [inner_cursorMoved]
    rfl
  · intro h1 hx hy
    rw [on_event_proj noPanics st _ BridgeState.last_mouse_position
      (fun s => (pcr_out noPanics s).2.2.2.2.2.2.2.2.1)]
    rw [inner_cursorMoved]
    dsimp [outA]
    rw [h1]
    simp [max_eq_left hx, max_eq_left hy]

/-- C9 witness: a pointer-moved to `(42, 17)` at scale 1 on the base state is
dispatched at `(42, 17)` and the cache agrees with the event position. -/
theorem C9_witness :
    baseState.scale_factor = 1 ∧ (0 : ℚ) ≤ 42 ∧ (0 : ℚ) ≤ 17 ∧
    (on_event noPanics baseState
        (Event.mouse (MouseEvent.cursorMoved ⟨42, 17⟩))).1.dispatched =
      baseState.dispatched ++
        [WindowEvent.pointerMoved
          ⟨42 / baseState.scale_factor, 17 / baseState.scale_factor⟩] ∧
    (on_event noPanics baseState
        (Event.mouse (MouseEvent.cursorMoved ⟨42, 17⟩))).1.last_mouse_position =
      ⟨max 42 0, max 17 0⟩ ∧
    (on_event noPanics baseState
        (Event.mouse (MouseEvent.cursorMoved ⟨42, 17⟩))).1.last_mouse_position =
      ⟨42 / baseState.scale_factor, 17 / baseState.scale_factor⟩ :=
  ⟨rfl, by norm_num, by norm_num,
   (C9_pointer_moved baseState 42 17).1,
   (C9_pointer_moved baseState 42 17).2.1,
   (C9_pointer_moved baseState 42 17).2.2 rfl (by norm_num) (by norm_num)⟩

/-- C9 counterexample: at scale factor 2, a pointer-moved to `(10, 10)` is
dispatched at `(5, 5)` while the cache is updated to `(10, 10)` — the cache
does not hold the dispatched event's position, refuting the claim as stated. -/
theorem C9_counterexample :
    (on_event noPanics scale2State
        (Event.mouse (MouseEvent.cursorMoved ⟨10, 10⟩))).1.dispatched =
      scale2State.dispatched ++ [WindowEvent.pointerMoved ⟨5, 5⟩] ∧
    (on_event noPanics scale2State
        (Event.mouse (MouseEvent.cursorMoved ⟨10, 10⟩))).1.last_mouse_position =
      ⟨10, 10⟩ ∧
    ((⟨10, 10⟩ : LogicalPosition) ≠ ⟨5, 5⟩) := by
  refine ⟨?_, ?_, by norm_num [LogicalPosition.mk.injEq]⟩
  · rw [on_event_proj noPanics scale2State _ BridgeState.dispatched
      (fun s => (pcr_out noPanics s).1)]
    rw [inner_cursorMoved]
    dsimp [outA]
    norm_num [scale2State, baseState]
  · rw [on_event_proj noPanics scale2State _ BridgeState.last_mouse_position
      (fun s => (pcr_out noPanics s).2.2.2.2.2.2.2.2.1)]
    rw [inner_cursorMoved]
    dsimp [outA]
    norm_num

end NihPlugSlint
